import Mathlib

/-!
Verification of `src-tauri/icons/generate.py` (icon generator).

The script reads one source image (`logo.png`), resizes it to a fixed size
table and writes a set of PNG files, one frontend PNG, one multi-size ICO
container and (best effort) one ICNS bundle.  We embed the script shallowly:
the filesystem effects of one run become an explicit `RunResult` record
(files written, lines printed, directories created, outcome), and the
environmental branch points of the script (does the source path exist, do its
bytes decode, does the ICNS save raise) become fields of an `Env` record.
Pillow library calls are modelled at their documented interface:
`Image.resize` is a deterministic resampling producing an image of the
requested dimensions in the source mode, and the ICO encoder follows the
documented rule that sizes bigger than the base image or 256 are ignored.
-/

namespace IconGen

/-- One RGBA pixel, as a 4-tuple of channel values. -/
abbrev Pix : Type := Nat × Nat × Nat × Nat

/-- An in-memory decoded bitmap: width, height, pixel mode (e.g. "RGBA"),
and the pixel grid as rows of pixels.  Models a PIL `Image.Image`. -/
structure Image where
  width : Nat
  height : Nat
  mode : String
  pixels : List (List Pix)
deriving DecidableEq, Repr

/-- Read the pixel at column `x`, row `y` (0 outside the grid). -/
def samplePixel (img : Image) (x y : Nat) : Pix :=
  (((img.pixels.getD y []).getD x ((0, 0, 0, 0) : Pix)))

/-- Models `Image.convert(mode)` as used on the freshly opened source:
the pixel data is reinterpreted in the requested mode.  Channel-layout
conversion is the identity on our abstract pixel values. -/
def Image.convert (img : Image) (mode : String) : Image :=
  { img with mode := mode }

/-- Models `source_img.resize((size, size), Image.LANCZOS)` from
`resize` in generate.py: a new square `size` by `size` image in the pixel
mode of the source, with pixel values a deterministic function of the source
pixels (the LANCZOS interpolation kernel is abstracted to coordinate-scaled
sampling; dimensions, mode preservation and determinism follow Pillow's
documented contract). -/
def resize (source_img : Image) (size : Nat) : Image :=
  { width := size
    height := size
    mode := source_img.mode
    pixels := (List.range size).map (fun y =>
      (List.range size).map (fun x =>
        samplePixel source_img (x * source_img.width / size)
          (y * source_img.height / size))) }

/-- Models `os.path.join(a, b)` for a relative second component. -/
def ospath_join (a b : String) : String := a ++ "/" ++ b

/-- Models `os.path.dirname`: everything before the last separator. -/
def ospath_dirname (p : String) : String :=
  String.intercalate "/" (p.splitOn "/").dropLast

/-- `SCRIPT_DIR`, the directory of the script itself
(`os.path.dirname(os.path.abspath(__file__))`), as a repo-relative path. -/
def SCRIPT_DIR : String := "src-tauri/icons"

/-- `SOURCE = os.path.join(SCRIPT_DIR, "..", "..", "..", "logo.png")`;
`os.path.join` concatenates without collapsing `..`. -/
def SOURCE : String :=
  ospath_join (ospath_join (ospath_join (ospath_join SCRIPT_DIR "..") "..") "..") "logo.png"

/-- `PNG_SIZES`: the size table, filename to edge length, in the insertion
order of the Python dict. -/
def PNG_SIZES : List (String × Nat) :=
  [("32x32.png", 32), ("128x128.png", 128), ("128x128@2x.png", 256), ("icon.png", 512)]

/-- `FRONTEND_ICON = os.path.join(SCRIPT_DIR, "..", "..", "src", "assets", "icon.png")`. -/
def FRONTEND_ICON : String :=
  ospath_join (ospath_join (ospath_join (ospath_join (ospath_join SCRIPT_DIR "..") "..") "src") "assets") "icon.png"

/-- `ico_sizes = [16, 24, 32, 48, 64, 128, 256]` from main. -/
def ico_sizes : List Nat := [16, 24, 32, 48, 64, 128, 256]

/-- The content of one written file: a PNG bitmap, an ICO container
(embedded size paired with its bitmap, in file order), or an ICNS bundle. -/
inductive FileContent where
  | png : Image → FileContent
  | ico : List (Nat × Image) → FileContent
  | icns : Image → FileContent
deriving DecidableEq, Repr

/-- A Python exception that the ICNS save may raise; the script's handler
is `except Exception`, so the particular class is irrelevant to it. -/
inductive PyExc where
  | unsupportedOperation
  | oserror
  | valueError
  | otherException
deriving DecidableEq, Repr

/-- The environment of one run: whether `SOURCE` exists on disk, the decoded
source image when its bytes are a valid image (`none` models a decode
error raised by `Image.open`), the exception raised by the ICNS save if any,
and the directories that already exist. -/
structure Env where
  sourceExists : Bool
  decoded : Option Image
  icnsExc : Option PyExc
  existingDirs : List String
deriving DecidableEq, Repr

/-- How the run ended: early `return` on a missing source, a fatal
uncaught exception from decoding, or normal completion. -/
inductive Outcome where
  | earlyReturn
  | fatalDecode
  | completed
deriving DecidableEq, Repr

/-- The observable effects of one run: files written (path and content, in
write order), lines printed to standard output, directories existing at the
end, and the outcome. -/
structure RunResult where
  files : List (String × FileContent)
  prints : List String
  dirs : List String
  outcome : Outcome
deriving DecidableEq, Repr

/-- Models `os.makedirs(d, exist_ok=True)`: the directory exists afterwards
and no error is raised when it already exists. -/
def makedirs (d : String) (dirs : List String) : List String :=
  if d ∈ dirs then dirs else d :: dirs

/-- Insert into a sorted list of naturals. -/
def insertSorted (n : Nat) : List Nat → List Nat
  | [] => [n]
  | m :: ms => if n ≤ m then n :: m :: ms else m :: insertSorted n ms

/-- Sort a list of naturals ascending (insertion sort). -/
def sortNat (l : List Nat) : List Nat := l.foldr insertSorted []

/-- Models Pillow's ICO encoder
(`ico_images[0].save(..., format="ICO", sizes=..., append_images=...)`):
for each requested size, taken as `sorted(set(sizes))`, a size bigger than
the base image or bigger than 256 is ignored; otherwise the first provided
image (base first, then appended images) of exactly that size is embedded,
and when none matches, a downscale of the base image is embedded. -/
def icoSave (base : Image) (append : List Image) (sizes : List Nat) :
    List (Nat × Image) :=
  let provided := base :: append
  (sortNat sizes.dedup).filterMap (fun s =>
    if s > base.width ∨ s > base.height ∨ s > 256 then none
    else
      match provided.find? (fun p => p.width == s && p.height == s) with
      | some p => some (s, p)
      | none => some (s, resize base s))

/-- The PNG-emission loop of main: for each table entry, the written file
(path in `SCRIPT_DIR`, resized bitmap). -/
def pngOutputs (source : Image) : List (String × FileContent) :=
  PNG_SIZES.map (fun e => (ospath_join SCRIPT_DIR e.1, FileContent.png (resize source e.2)))

/-- The progress lines printed by the PNG-emission loop. -/
def pngPrints : List String :=
  PNG_SIZES.map (fun e => "  " ++ e.1 ++ " (" ++ toString e.2 ++ "x" ++ toString e.2 ++ ")")

/-- The `icon.ico` progress line of main. -/
def icoPrint : String :=
  "  icon.ico (" ++ String.intercalate ", " (ico_sizes.map toString) ++ ")"

/-- The ICO step of main: `ico_images = [resize(source, s) for s in ico_sizes]`
followed by `ico_images[0].save(ico_path, format="ICO", sizes=...,
append_images=ico_images[1:])`; written as the (path, content) pair. -/
def icoEntry (source : Image) : String × FileContent :=
  (ospath_join SCRIPT_DIR "icon.ico",
    FileContent.ico
      (icoSave ((ico_sizes.map (fun s => resize source s)).headD (resize source 16))
        (ico_sizes.map (fun s => resize source s)).tail ico_sizes))

/-- The body of main after the source has been opened and converted to
RGBA: emits the PNG set, the frontend asset, the ICO container and then
attempts the ICNS bundle, catching any exception of that save. -/
def mainBody (source : Image) (icnsExc : Option PyExc) (dirs0 : List String) :
    RunResult :=
  let headerPrints : List String :=
    ["Source: " ++ SOURCE ++ " (" ++ toString source.width ++ "x" ++ toString source.height ++ ")", ""]
  let icoFile : String × FileContent := icoEntry source
  let feFile : String × FileContent := (FRONTEND_ICON, FileContent.png (resize source 256))
  match icnsExc with
  | none =>
      { files := pngOutputs source ++ [feFile, icoFile,
          (ospath_join SCRIPT_DIR "icon.icns", FileContent.icns source)]
        prints := headerPrints ++ pngPrints ++
          ["  src/assets/icon.png (256x256)", icoPrint, "  icon.icns", "",
           "Done. All icons generated from logo.png"]
        dirs := makedirs (ospath_dirname FRONTEND_ICON) dirs0
        outcome := Outcome.completed }
  | some _ =>
      { files := pngOutputs source ++ [feFile, icoFile]
        prints := headerPrints ++ pngPrints ++
          ["  src/assets/icon.png (256x256)", icoPrint,
           "  Warning: Cannot generate .icns (Pillow ICNS support missing)", "",
           "Done. All icons generated from logo.png"]
        dirs := makedirs (ospath_dirname FRONTEND_ICON) dirs0
        outcome := Outcome.completed }

/-- `main()` of generate.py: returns early with an error message when the
source does not exist; propagates a decode error fatally; otherwise runs
the sequential emission steps to completion. -/
def main (env : Env) : RunResult :=
  if env.sourceExists then
    match env.decoded with
    | none =>
        { files := [], prints := [], dirs := env.existingDirs,
          outcome := Outcome.fatalDecode }
    | some raw => mainBody (raw.convert "RGBA") env.icnsExc env.existingDirs
  else
    { files := [], prints := ["ERROR: Source not found: " ++ SOURCE],
      dirs := env.existingDirs, outcome := Outcome.earlyReturn }

/-! Concrete fixtures used to instantiate the theorems below. -/

/-- A small concrete 4 by 4 RGBA source image. -/
def sampleSource : Image :=
  { width := 4, height := 4, mode := "RGBA",
    pixels := (List.range 4).map (fun y =>
      (List.range 4).map (fun x => ((x, y, x + y, 255) : Pix))) }

/-- A concrete 512 by 512 RGBA source image (at least the maximum target
size). -/
def bigSource : Image :=
  { width := 512, height := 512, mode := "RGBA",
    pixels := (List.range 512).map (fun y =>
      (List.range 512).map (fun x => ((x % 256, y % 256, 0, 255) : Pix))) }

/-- A concrete non-square 3 by 5 RGBA source image, smaller than every
target size. -/
def smallSource : Image :=
  { width := 3, height := 5, mode := "RGBA",
    pixels := (List.range 5).map (fun y =>
      (List.range 3).map (fun x => ((x, y, 0, 128) : Pix))) }

/-- A run in which everything succeeds, on the small sample source. -/
def sampleEnv : Env :=
  { sourceExists := true, decoded := some sampleSource, icnsExc := none,
    existingDirs := [] }

/-- A run in which the source path does not exist. -/
def missingEnv : Env :=
  { sourceExists := false, decoded := none, icnsExc := none, existingDirs := [] }

/-- A run in which the source file exists but its bytes do not decode. -/
def badBytesEnv : Env :=
  { sourceExists := true, decoded := none, icnsExc := none, existingDirs := [] }

/-- A run in which the ICNS save raises an operating-system error. -/
def icnsFailEnv : Env :=
  { sourceExists := true, decoded := some sampleSource,
    icnsExc := some PyExc.oserror, existingDirs := [] }

/-- A run in which the ICNS save raises some unrelated exception. -/
def icnsOtherFailEnv : Env :=
  { sourceExists := true, decoded := some sampleSource,
    icnsExc := some PyExc.otherException, existingDirs := [] }

/-- A successful run on the 512 by 512 source. -/
def bigEnv : Env :=
  { sourceExists := true, decoded := some bigSource, icnsExc := none,
    existingDirs := [] }

/-- A successful run on the small non-square source. -/
def smallEnv : Env :=
  { sourceExists := true, decoded := some smallSource, icnsExc := none,
    existingDirs := [] }

/-! Helper lemmas shared by the claim theorems. -/

/-- The resized image has the requested width. -/
theorem resize_width (img : Image) (n : Nat) : (resize img n).width = n := rfl

/-- The resized image has the requested height. -/
theorem resize_height (img : Image) (n : Nat) : (resize img n).height = n := rfl

/-- The resized image keeps the pixel mode of its source. -/
theorem resize_mode (img : Image) (n : Nat) : (resize img n).mode = img.mode := rfl

/-- After `makedirs` the requested directory exists. -/
theorem mem_makedirs (d : String) (dirs : List String) : d ∈ makedirs d dirs := by
  unfold makedirs
  split <;> simp_all

/-- `makedirs` with the exist-ok flag is idempotent. -/
theorem makedirs_idem (d : String) (dirs : List String) :
    makedirs d (makedirs d dirs) = makedirs d dirs := by
  unfold makedirs
  split <;> simp_all

/-- `makedirs` succeeds without changing anything when the directory is
already present. -/
theorem makedirs_of_mem (d : String) (dirs : List String) (h : d ∈ dirs) :
    makedirs d dirs = dirs := by
  unfold makedirs
  simp [h]

/-! Claim theorems. -/

/-- C1: if the source image path does not exist, the program prints exactly
one error line, which names the missing path `SOURCE`, halts with an early
return, and writes no files. -/
theorem source_missing_halts (env : Env) (h : env.sourceExists = false) :
    (main env).files = [] ∧
    (main env).prints = ["ERROR: Source not found: " ++ SOURCE] ∧
    (main env).outcome = Outcome.earlyReturn := by
  simp [main, h]

/-- Witness for C1 at the concrete environment `missingEnv`. -/
theorem source_missing_halts_witness :
    (main missingEnv).files = [] ∧
    (main missingEnv).prints = ["ERROR: Source not found: " ++ SOURCE] ∧
    (main missingEnv).outcome = Outcome.earlyReturn :=
  source_missing_halts missingEnv rfl

/-- C8: every step other than the ICNS bundle step is fail-fast: when the
source file exists but its bytes are not a valid image, the decode error
propagates uncaught, the run is fatal and nothing is written or printed. -/
theorem decode_error_fatal (env : Env) (h1 : env.sourceExists = true)
    (h2 : env.decoded = none) :
    (main env).outcome = Outcome.fatalDecode ∧
    (main env).files = [] ∧
    (main env).prints = [] := by
  simp [main, h1, h2]

/-- Witness for C8 at the concrete environment `badBytesEnv`. -/
theorem decode_error_fatal_witness :
    (main badBytesEnv).outcome = Outcome.fatalDecode ∧
    (main badBytesEnv).files = [] ∧
    (main badBytesEnv).prints = [] :=
  decode_error_fatal badBytesEnv rfl rfl

/-- C5: `resize` returns a new square image of the requested edge length in
the same pixel mode as its source (transparency-capable RGBA stays RGBA).
The source is a value of the shallow embedding, so it is never mutated, and
every derived image is computed from the source alone. -/
theorem resize_square_mode_preserving (img : Image) (n : Nat) :
    (resize img n).width = n ∧
    (resize img n).height = n ∧
    (resize img n).mode = img.mode ∧
    resize img n =
      { width := n, height := n, mode := img.mode,
        pixels := (List.range n).map (fun y =>
          (List.range n).map (fun x =>
            samplePixel img (x * img.width / n) (y * img.height / n))) } :=
  ⟨rfl, rfl, rfl, rfl⟩

/-- C6: resizing is deterministic — two runs of `resize` on equal inputs
and equal target sizes yield identical images, pixel data included. -/
theorem resize_deterministic (img1 img2 : Image) (n1 n2 : Nat)
    (h1 : img1 = img2) (h2 : n1 = n2) : resize img1 n1 = resize img2 n2 := by
  rw [h1, h2]

/-- Witness for C6 at the concrete source `sampleSource` and size 3. -/
theorem resize_deterministic_witness :
    resize sampleSource 3 = resize sampleSource 3 :=
  resize_deterministic sampleSource sampleSource 3 3 rfl rfl

/-- When the source exists and decodes, main runs `mainBody` on the
RGBA-converted image. -/
theorem main_eq_body (env : Env) (img : Image) (h1 : env.sourceExists = true)
    (h2 : env.decoded = some img) :
    main env = mainBody (img.convert "RGBA") env.icnsExc env.existingDirs := by
  simp [main, h1, h2]

/-- C2: when the source exists, decodes as RGBA, and is at least the
maximum target size, the PNG-emission loop writes exactly the four files
32x32.png, 128x128.png, 128x128@2x.png, icon.png into the script directory,
each holding the resize of the source to the size-table entry, and each
resized image is square with the declared width and height. -/
theorem png_emission_exact (env : Env) (img : Image)
    (h1 : env.sourceExists = true) (h2 : env.decoded = some img)
    (hm : img.mode = "RGBA") (hw : 512 ≤ img.width) (hh : 512 ≤ img.height) :
    (main env).files.take 4 = pngOutputs (img.convert "RGBA") ∧
    pngOutputs (img.convert "RGBA") =
      [(ospath_join SCRIPT_DIR "32x32.png",
          FileContent.png (resize (img.convert "RGBA") 32)),
       (ospath_join SCRIPT_DIR "128x128.png",
          FileContent.png (resize (img.convert "RGBA") 128)),
       (ospath_join SCRIPT_DIR "128x128@2x.png",
          FileContent.png (resize (img.convert "RGBA") 256)),
       (ospath_join SCRIPT_DIR "icon.png",
          FileContent.png (resize (img.convert "RGBA") 512))] ∧
    ∀ e ∈ PNG_SIZES, (resize (img.convert "RGBA") e.2).width = e.2 ∧
      (resize (img.convert "RGBA") e.2).height = e.2 := by
  refine ⟨?_, by simp [pngOutputs, PNG_SIZES], fun e _ => ⟨rfl, rfl⟩⟩
  rw [main_eq_body env img h1 h2]
  rcases env.icnsExc with _ | e <;>
    simp [mainBody, pngOutputs, PNG_SIZES]

/-- Witness for C2 at the concrete environment `bigEnv` (512 by 512 RGBA
source). -/
theorem png_emission_exact_witness :
    (main bigEnv).files.take 4 = pngOutputs (bigSource.convert "RGBA") ∧
    pngOutputs (bigSource.convert "RGBA") =
      [(ospath_join SCRIPT_DIR "32x32.png",
          FileContent.png (resize (bigSource.convert "RGBA") 32)),
       (ospath_join SCRIPT_DIR "128x128.png",
          FileContent.png (resize (bigSource.convert "RGBA") 128)),
       (ospath_join SCRIPT_DIR "128x128@2x.png",
          FileContent.png (resize (bigSource.convert "RGBA") 256)),
       (ospath_join SCRIPT_DIR "icon.png",
          FileContent.png (resize (bigSource.convert "RGBA") 512))] ∧
    ∀ e ∈ PNG_SIZES, (resize (bigSource.convert "RGBA") e.2).width = e.2 ∧
      (resize (bigSource.convert "RGBA") e.2).height = e.2 :=
  png_emission_exact bigEnv bigSource rfl rfl rfl (by decide) (by decide)

/-- C3 fails on the code: on a fully successful concrete run the emitted
icon.ico embeds only the single size 16, not the declared seven sizes.  The
base image handed to the ICO encoder is the 16 by 16 resize, and the encoder
ignores every requested size bigger than the base image, so the frames kept
are exactly `[(16, resize source 16)]`, whose size list [16] differs from
`ico_sizes`. -/
theorem ico_embeds_only_base_size :
    (main sampleEnv).files.lookup (ospath_join SCRIPT_DIR "icon.ico") =
      some (FileContent.ico [(16, resize (sampleSource.convert "RGBA") 16)]) ∧
    [16] ≠ ico_sizes :=
  ⟨rfl, by decide⟩

/-- C4: when the ICNS save raises, the failure is caught locally, the
warning line is printed, the run completes, and the files written are
exactly the four table PNGs, the frontend PNG and the ICO container — the
ICNS absence blocks no other output. -/
theorem icns_failure_nonfatal (env : Env) (img : Image) (e : PyExc)
    (h1 : env.sourceExists = true) (h2 : env.decoded = some img)
    (h3 : env.icnsExc = some e) :
    (main env).outcome = Outcome.completed ∧
    "  Warning: Cannot generate .icns (Pillow ICNS support missing)" ∈
      (main env).prints ∧
    (main env).files = pngOutputs (img.convert "RGBA") ++
      [(FRONTEND_ICON, FileContent.png (resize (img.convert "RGBA") 256)),
       icoEntry (img.convert "RGBA")] := by
  rw [main_eq_body env img h1 h2, h3]
  refine ⟨rfl, ?_, rfl⟩
  simp [mainBody, pngPrints, PNG_SIZES]

/-- Witness for C4 at the concrete environment `icnsFailEnv` (the ICNS
save raises an OS error). -/
theorem icns_failure_nonfatal_witness :
    (main icnsFailEnv).outcome = Outcome.completed ∧
    "  Warning: Cannot generate .icns (Pillow ICNS support missing)" ∈
      (main icnsFailEnv).prints ∧
    (main icnsFailEnv).files = pngOutputs (sampleSource.convert "RGBA") ++
      [(FRONTEND_ICON, FileContent.png (resize (sampleSource.convert "RGBA") 256)),
       icoEntry (sampleSource.convert "RGBA")] :=
  icns_failure_nonfatal icnsFailEnv sampleSource PyExc.oserror rfl rfl rfl

/-- C7: the secondary-asset step resizes the source to exactly 256 by 256
and writes it at `FRONTEND_ICON`; the asset directory exists afterwards,
and directory creation is idempotent (and a no-op when the directory is
already present). -/
theorem frontend_asset_emission (env : Env) (img : Image)
    (h1 : env.sourceExists = true) (h2 : env.decoded = some img) :
    (FRONTEND_ICON, FileContent.png (resize (img.convert "RGBA") 256)) ∈
      (main env).files ∧
    (resize (img.convert "RGBA") 256).width = 256 ∧
    (resize (img.convert "RGBA") 256).height = 256 ∧
    ospath_dirname FRONTEND_ICON ∈ (main env).dirs ∧
    (∀ d dirs, makedirs d (makedirs d dirs) = makedirs d dirs) ∧
    (∀ d dirs, d ∈ dirs → makedirs d dirs = dirs) := by
  rw [main_eq_body env img h1 h2]
  refine ⟨?_, rfl, rfl, ?_, makedirs_idem, makedirs_of_mem⟩
  · rcases env.icnsExc with _ | e <;> simp [mainBody]
  · rcases env.icnsExc with _ | e <;>
      exact mem_makedirs (ospath_dirname FRONTEND_ICON) env.existingDirs

/-- Witness for C7 at the concrete environment `sampleEnv`. -/
theorem frontend_asset_emission_witness :
    (FRONTEND_ICON, FileContent.png (resize (sampleSource.convert "RGBA") 256)) ∈
      (main sampleEnv).files ∧
    (resize (sampleSource.convert "RGBA") 256).width = 256 ∧
    (resize (sampleSource.convert "RGBA") 256).height = 256 ∧
    ospath_dirname FRONTEND_ICON ∈ (main sampleEnv).dirs ∧
    (∀ d dirs, makedirs d (makedirs d dirs) = makedirs d dirs) ∧
    (∀ d dirs, d ∈ dirs → makedirs d dirs = dirs) :=
  frontend_asset_emission sampleEnv sampleSource rfl rfl

/-- C9: the ICNS handler is a catch-all — for every exception class raised
by the ICNS save, the same Pillow-support warning is printed and the run
still completes, printing the final success line. -/
theorem icns_handler_catches_all (env : Env) (img : Image) (e : PyExc)
    (h1 : env.sourceExists = true) (h2 : env.decoded = some img)
    (h3 : env.icnsExc = some e) :
    "  Warning: Cannot generate .icns (Pillow ICNS support missing)" ∈
      (main env).prints ∧
    "Done. All icons generated from logo.png" ∈ (main env).prints ∧
    (main env).outcome = Outcome.completed := by
  rw [main_eq_body env img h1 h2, h3]
  refine ⟨?_, ?_, rfl⟩ <;> simp [mainBody, pngPrints, PNG_SIZES]

/-- Witness for C9 at the concrete environment `icnsOtherFailEnv` (the
ICNS save raises an exception unrelated to format support). -/
theorem icns_handler_catches_all_witness :
    "  Warning: Cannot generate .icns (Pillow ICNS support missing)" ∈
      (main icnsOtherFailEnv).prints ∧
    "Done. All icons generated from logo.png" ∈ (main icnsOtherFailEnv).prints ∧
    (main icnsOtherFailEnv).outcome = Outcome.completed :=
  icns_handler_catches_all icnsOtherFailEnv sampleSource PyExc.otherException
    rfl rfl rfl

/-- C10: no dimension validation — for every decodable source image of any
width and height, the run completes, the four table PNGs are written each at
its declared target size (upscaling when the source is smaller), the
frontend PNG is written at 256, and the ICO entry is written. -/
theorem no_dimension_validation (env : Env) (img : Image)
    (h1 : env.sourceExists = true) (h2 : env.decoded = some img) :
    (main env).outcome = Outcome.completed ∧
    (main env).files.take 4 = pngOutputs (img.convert "RGBA") ∧
    (∀ e ∈ PNG_SIZES, (resize (img.convert "RGBA") e.2).width = e.2 ∧
        (resize (img.convert "RGBA") e.2).height = e.2) ∧
    (FRONTEND_ICON, FileContent.png (resize (img.convert "RGBA") 256)) ∈
      (main env).files ∧
    icoEntry (img.convert "RGBA") ∈ (main env).files := by
  rw [main_eq_body env img h1 h2]
  refine ⟨?_, ?_, fun e _ => ⟨rfl, rfl⟩, ?_, ?_⟩ <;>
    rcases env.icnsExc with _ | e <;>
      simp [mainBody, pngOutputs, PNG_SIZES]

/-- Witness for C10 at the concrete environment `smallEnv` (non-square
3 by 5 source, smaller than every target size). -/
theorem no_dimension_validation_witness :
    (main smallEnv).outcome = Outcome.completed ∧
    (main smallEnv).files.take 4 = pngOutputs (smallSource.convert "RGBA") ∧
    (∀ e ∈ PNG_SIZES, (resize (smallSource.convert "RGBA") e.2).width = e.2 ∧
        (resize (smallSource.convert "RGBA") e.2).height = e.2) ∧
    (FRONTEND_ICON, FileContent.png (resize (smallSource.convert "RGBA") 256)) ∈
      (main smallEnv).files ∧
    icoEntry (smallSource.convert "RGBA") ∈ (main smallEnv).files :=
  no_dimension_validation smallEnv smallSource rfl rfl

end IconGen
